import Mathlib

/-!
Verification development for the live-stream engagement subsystem of the
TempleOfTruthChurch backend. The definitions below are a shallow embedding
of `src/services/streaming.service.ts` (Redis-backed chat, presence and
stats) and of the streaming controller (polls, moderation, bans). Redis
structures are modelled explicitly: a Redis SET as a `Finset String`, a
Redis LIST as a `List` kept newest-first (LPUSH prepends), a Redis HASH as
an optional record. Relational (Prisma) tables are modelled as lists of
rows. Time is threaded explicitly where the source calls `Date.now()`.
-/

namespace Streaming

/-- One chat message as stored in the Redis list `stream:{id}:chat` by
`StreamingService.sendChatMessage` (the `messageData` object). Messages in
the Redis list carry no moderation status field. -/
structure ChatMessageData where
  id : String
  streamId : String
  userId : String
  userName : String
  userAvatar : String
  message : String
  timestamp : Nat
  type : String
deriving Repr, DecidableEq

/-- Input of `StreamingService.sendChatMessage` (the `message` argument built
by the controller). -/
structure ChatInput where
  userId : String
  userName : String
  userAvatar : String
  text : String
  type : String
deriving Repr, DecidableEq

/-- The join/leave action argument of `StreamingService.updateViewerCount`. -/
inductive ViewerAction where
  | join
  | leave
deriving Repr, DecidableEq

/-- The Redis hash `stream:{id}` fields that the modelled operations touch.
`viewerCount` and `currentViewers` are distinct fields in the source:
`getStreamInfo` overwrites `viewerCount` on the returned object while
`updateViewerCount` writes `currentViewers` back into the hash. -/
structure StreamMeta where
  title : String := ""
  status : String := ""
  viewerCount : Option Nat := none
  currentViewers : Option Nat := none
deriving Repr, DecidableEq

/-- A row of the Prisma `pollOption` table (created by `createPoll`). -/
structure PollOption where
  id : String
  text : String
  order : Nat
deriving Repr, DecidableEq

/-- A row of the Prisma `poll` table, with its included options. -/
structure Poll where
  id : String
  sermonId : String
  question : String
  options : List PollOption
  isActive : Bool
  endedAt : Option Nat
deriving Repr, DecidableEq

/-- A row of the Prisma `pollVote` table: unique per (pollId, userId), which
`voteOnPoll` enforces by a `findUnique` check before `create`. -/
structure PollVote where
  pollId : String
  userId : String
  optionId : String
deriving Repr, DecidableEq

/-- A row of the Prisma `chatMessage` table, the store that
`getModerationQueue`, `moderateMessage` and `deleteMessage` operate on.
This table is distinct from the Redis chat list. -/
structure ChatMessageRow where
  id : String
  streamId : String
  status : String
  moderationReason : Option String
deriving Repr, DecidableEq

/-- A row of the Prisma `streamBan` table, created by `banUser`. -/
structure StreamBan where
  sermonId : String
  userId : String
  reason : String
  duration : Option Nat
  bannedBy : String
deriving Repr, DecidableEq

/-- A row of the Prisma `streamConfig` table (fields validated by the
streaming routes: `moderateChat` boolean, `chatSlowMode` nonnegative int). -/
structure StreamConfig where
  sermonId : String
  moderateChat : Bool
  chatSlowMode : Nat
deriving Repr, DecidableEq

/-- The fields of a `user` row that the controller chat path selects. -/
structure UserRow where
  id : String
  firstName : String
  lastName : String
  avatar : String
deriving Repr, DecidableEq

/-- The combined mutable state the modelled operations read and write:
Redis keys per stream id, the pub/sub events published so far (in order),
and the Prisma tables. -/
structure St where
  viewers : String → Finset String
  totalViews : String → Nat
  streamHash : String → Option StreamMeta
  chat : String → List ChatMessageData
  published : List (String × ChatMessageData)
  polls : List Poll
  pollVotes : List PollVote
  chatRows : List ChatMessageRow
  bans : List StreamBan
  configs : List StreamConfig
  users : List UserRow

/-- The state with every store empty. -/
def emptySt : St where
  viewers := fun _ => ∅
  totalViews := fun _ => 0
  streamHash := fun _ => none
  chat := fun _ => []
  published := []
  polls := []
  pollVotes := []
  chatRows := []
  bans := []
  configs := []
  users := []

namespace StreamingService

/-- StreamingService.updateViewerCount: on join, SADD the user to
`stream:{id}:viewers` and HINCRBY `totalViews` in `stream:{id}:stats`; on
leave, SREM the user. In both cases SCARD is then written back to the
`currentViewers` field of the `stream:{id}` hash (HSET creates the hash when
absent). The EXPIRE call (TTL refresh) does not change the value. -/
def updateViewerCount (s : St) (streamId userId : String) (action : ViewerAction) : St :=
  let s1 : St :=
    match action with
    | .join =>
        { s with
          viewers := fun k => if k = streamId then insert userId (s.viewers k) else s.viewers k
          totalViews := fun k => if k = streamId then s.totalViews k + 1 else s.totalViews k }
    | .leave =>
        { s with
          viewers := fun k => if k = streamId then (s.viewers k).erase userId else s.viewers k }
  let n := (s1.viewers streamId).card
  { s1 with
    streamHash := fun k =>
      if k = streamId then
        some { ((s1.streamHash k).getD {}) with currentViewers := some n }
      else s1.streamHash k }

/-- StreamingService.getStreamInfo, cached branch: when HGETALL of
`stream:{id}` is nonempty, return the cached hash with its `viewerCount`
field replaced by SCARD of `stream:{id}:viewers` taken at read time. The
uncached branch delegates to the external broadcast provider (a network
fetch) and is outside the model, hence `none` here. -/
def getStreamInfo (s : St) (streamId : String) : Option StreamMeta :=
  match s.streamHash streamId with
  | some meta => some { meta with viewerCount := some ((s.viewers streamId).card) }
  | none => none

/-- The `messageData` object `StreamingService.sendChatMessage` builds from
its input, a fresh uuid and `Date.now()`. -/
def mkMessageData (streamId msgId : String) (now : Nat) (m : ChatInput) : ChatMessageData :=
  { id := msgId
    streamId := streamId
    userId := m.userId
    userName := m.userName
    userAvatar := m.userAvatar
    message := m.text
    timestamp := now
    type := m.type }

/-- StreamingService.sendChatMessage: LPUSH the serialized message onto
`stream:{id}:chat`, LTRIM the list to indices 0..999 (keep the newest 1000),
then PUBLISH the message on the `stream:{id}:chat` channel. No status, ban,
rate-limit or moderation logic appears in this path. -/
def sendChatMessage (s : St) (streamId msgId : String) (now : Nat) (m : ChatInput) : St :=
  let d := mkMessageData streamId msgId now m
  { s with
    chat := fun k => if k = streamId then List.take 1000 (d :: s.chat k) else s.chat k
    published := s.published ++ [(streamId, d)] }

/-- Effective start index of Redis LRANGE on a list of length n: a negative
index counts from the end, clamped at 0. -/
def lrangeStart (n start : Int) : Int :=
  if start < 0 then max (n + start) 0 else start

/-- Effective stop index of Redis LRANGE on a list of length n: a negative
index counts from the end. -/
def lrangeStop (n stop : Int) : Int :=
  if stop < 0 then n + stop else stop

/-- Redis LRANGE on a list: start and stop are inclusive indices, a negative
index counts from the end of the list, out-of-range indices are clamped. -/
def lrange {α : Type} (l : List α) (start stop : Int) : List α :=
  if lrangeStart (l.length : Int) start > lrangeStop (l.length : Int) stop then []
  else (l.take ((lrangeStop (l.length : Int) stop).toNat + 1)).drop
    (lrangeStart (l.length : Int) start).toNat

/-- StreamingService.getChatHistory: LRANGE `stream:{id}:chat` from 0 to
`limit - 1` and reverse the result; when the underlying read fails (`read`
is `none`) the catch branch returns the empty list. -/
def getChatHistory (read : Option (List ChatMessageData)) (limit : Nat) : List ChatMessageData :=
  match read with
  | some l => (lrange l 0 ((limit : Int) - 1)).reverse
  | none => []

end StreamingService

namespace StreamingController

open StreamingService

/-- StreamingController.sendChatMessage: look the author up in the `user`
table (404 when absent), build the message object with the display name and
avatar, and call the service. Nothing in this path consults bans, the stream
config or any rate limit. -/
def sendChatMessage (s : St) (streamId userId msgId : String) (now : Nat)
    (text ty : String) : Except String St :=
  match s.users.find? (fun u => u.id == userId) with
  | none => .error "User not found"
  | some u =>
      .ok (StreamingService.sendChatMessage s streamId msgId now
        { userId := u.id
          userName := u.firstName ++ " " ++ u.lastName
          userAvatar := u.avatar
          text := text
          type := ty })

/-- StreamingController.voteOnPoll: findUnique on (pollId, userId); when a
vote exists answer 400 "Already voted on this poll", otherwise create the
vote row. The poll's `isActive` flag and the option list are not consulted. -/
def voteOnPoll (s : St) (pollId userId optionId : String) : Except String St :=
  match s.pollVotes.find? (fun v => v.pollId == pollId && v.userId == userId) with
  | some _ => .error "Already voted on this poll"
  | none =>
      .ok { s with pollVotes := s.pollVotes ++ [{ pollId := pollId, userId := userId, optionId := optionId }] }

/-- StreamingController.endPoll: update the poll row, setting isActive to
false and endedAt to the current time; a missing row makes the Prisma
update raise (mapped to an error here). -/
def endPoll (s : St) (pollId : String) (now : Nat) : Except String St :=
  if s.polls.any (fun p => p.id == pollId) then
    .ok { s with
      polls := s.polls.map (fun p =>
        if p.id == pollId then { p with isActive := false, endedAt := some now } else p) }
  else .error "Poll not found"

/-- Votes of one option: the Prisma relation `votes` on `pollOption`, the
rows of `pollVote` whose optionId is the option's id. The Prisma schema file
is not among the repository's source files; this relation is the standard
meaning of the `include: { votes: ... }` clause in `getPollResults`. -/
def optionVotes (s : St) (o : PollOption) : List PollVote :=
  s.pollVotes.filter (fun v => v.optionId == o.id)

/-- One entry of the results array built by `getPollResults`. The display
name join through the `user` relation is presentation only and is not
modelled; voters are their user ids. -/
structure OptionResult where
  id : String
  text : String
  votes : Nat
  voters : List String
deriving Repr, DecidableEq

/-- The response of `getPollResults`. -/
structure PollResults where
  question : String
  results : List OptionResult
  totalVotes : Nat
deriving Repr, DecidableEq

/-- StreamingController.getPollResults: find the poll (404 when absent), map
each option to its vote count and voters, and report totalVotes as the sum
of the per-option counts. -/
def getPollResults (s : St) (pollId : String) : Except String PollResults :=
  match s.polls.find? (fun p => p.id == pollId) with
  | none => .error "Poll not found"
  | some p =>
      let results := p.options.map (fun o =>
        { id := o.id
          text := o.text
          votes := (optionVotes s o).length
          voters := (optionVotes s o).map (fun v => v.userId) : OptionResult })
      .ok { question := p.question
            results := results
            totalVotes := (results.map (fun r => r.votes)).sum }

/-- StreamingController.moderateMessage: update the status and
moderationReason of one row of the Prisma `chatMessage` table. The Redis
chat list and the pub/sub channel are untouched. -/
def moderateMessage (s : St) (messageId status : String) (reason : Option String) :
    Except String St :=
  if s.chatRows.any (fun r => r.id == messageId) then
    .ok { s with
      chatRows := s.chatRows.map (fun r =>
        if r.id == messageId then { r with status := status, moderationReason := reason } else r) }
  else .error "Message not found"

/-- StreamingController.deleteMessage: delete one row of the Prisma
`chatMessage` table. The Redis chat list is untouched. -/
def deleteMessage (s : St) (messageId : String) : Except String St :=
  if s.chatRows.any (fun r => r.id == messageId) then
    .ok { s with chatRows := s.chatRows.filter (fun r => !(r.id == messageId)) }
  else .error "Message not found"

/-- StreamingController.banUser: create a `streamBan` row. No other state is
read or written, and no other operation of the subsystem reads this table. -/
def banUser (s : St) (streamId userId reason : String) (duration : Option Nat)
    (bannedBy : String) : St :=
  { s with bans := s.bans ++ [{ sermonId := streamId, userId := userId, reason := reason,
                                duration := duration, bannedBy := bannedBy }] }

end StreamingController

/-! Concrete states used by counterexamples and witnesses. -/

/-- A sample user row. -/
def exUser : UserRow := { id := "u1", firstName := "Ann", lastName := "Lee", avatar := "" }

/-- A sample ban row on stream s1 for user u1. -/
def exBan : StreamBan :=
  { sermonId := "s1", userId := "u1", reason := "spam", duration := some 10, bannedBy := "mod" }

/-- A state in which user u1 is banned on stream s1. -/
def exBanSt : St := { emptySt with users := [exUser], bans := [exBan] }

/-- A sample stream configuration with a five-second slow mode. -/
def exCfg5 : StreamConfig := { sermonId := "s1", moderateChat := false, chatSlowMode := 5 }

/-- A state in which stream s1 is configured with chatSlowMode = 5. -/
def exSlowSt : St := { emptySt with users := [exUser], configs := [exCfg5] }

/-- A sample stream configuration with moderated chat. -/
def exCfgMod : StreamConfig := { sermonId := "s1", moderateChat := true, chatSlowMode := 0 }

/-- A state in which stream s1 is configured with moderateChat = true. -/
def exModSt : St := { emptySt with users := [exUser], configs := [exCfgMod] }

/-- A sample chat message. -/
def exMsg1 : ChatMessageData :=
  { id := "m1", streamId := "s1", userId := "u1", userName := "Ann Lee", userAvatar := "",
    message := "hello", timestamp := 1, type := "message" }

/-- A second sample chat message. -/
def exMsg2 : ChatMessageData :=
  { id := "m2", streamId := "s1", userId := "u1", userName := "Ann Lee", userAvatar := "",
    message := "again", timestamp := 2, type := "message" }

/-- A sample chat input matching exMsg1. -/
def exInput : ChatInput :=
  { userId := "u1", userName := "Ann Lee", userAvatar := "", text := "hello", type := "message" }

/-- A state whose Redis history for s1 holds exMsg1 and whose relational
chatMessage table holds a row with the same message id. -/
def exDelSt : St :=
  { emptySt with
    chat := fun k => if k = "s1" then [exMsg1] else []
    chatRows := [{ id := "m1", streamId := "s1", status := "APPROVED", moderationReason := none }] }

/-- A poll with two options, already inactive. -/
def exPollInactive : Poll :=
  { id := "p1", sermonId := "s1", question := "Attend?",
    options := [{ id := "o1", text := "Yes", order := 0 }, { id := "o2", text := "No", order := 1 }],
    isActive := false, endedAt := some 3 }

/-- A state holding the inactive poll p1 and no votes. -/
def exPollSt : St := { emptySt with polls := [exPollInactive] }

/-- An active poll p2 on stream s1 whose single option is o3. -/
def exPollOther : Poll :=
  { id := "p2", sermonId := "s1", question := "Stay?",
    options := [{ id := "o3", text := "Yes", order := 0 }],
    isActive := true, endedAt := none }

/-- The poll p1 in its active form. -/
def exPollActive : Poll := { exPollInactive with isActive := true, endedAt := none }

/-- A state holding two polls: p1 (options o1, o2) and p2 (option o3). -/
def exVoteSt : St :=
  { emptySt with polls := [exPollActive, exPollOther] }

/-- The two-poll state after user u1 voted on p1 with option o1. -/
def exVoteSt2 : St :=
  { exVoteSt with pollVotes := [{ pollId := "p1", userId := "u1", optionId := "o1" }] }

/-- Helper for the presence interleaving theorem: the effect of one
join/leave event on the presence set (the viewers component of
updateViewerCount). -/
def viewersStep (V : Finset String) (e : String × ViewerAction) : Finset String :=
  match e.2 with
  | .join => insert e.1 V
  | .leave => V.erase e.1

/-- Run a list of join/leave events through updateViewerCount on one stream. -/
def applyViewerEvents (s : St) (sid : String) (evs : List (String × ViewerAction)) : St :=
  evs.foldl (fun acc e => StreamingService.updateViewerCount acc sid e.1 e.2) s

/-- The action of the last event of a given user in an event list, if any. -/
def lastActionOf (evs : List (String × ViewerAction)) (u : String) : Option ViewerAction :=
  match evs with
  | [] => none
  | e :: es =>
      match lastActionOf es u with
      | some a => some a
      | none => if e.1 = u then some e.2 else none

/-- Boolean membership of a string in a list of ids. -/
def memberIds (x : String) (ids : List String) : Bool :=
  match ids with
  | [] => false
  | i :: is => (x == i) || memberIds x is

/-- Vote rows whose optionId is one of the options of poll p, whatever poll
they were cast on: exactly the rows getPollResults counts for p, since the
votes relation of an option joins by optionId alone. -/
def optionMatchedVotes (s : St) (p : Poll) : List PollVote :=
  s.pollVotes.filter (fun v => memberIds v.optionId (p.options.map (fun o => o.id)))

/-- Specification shorthand for the presence theorem: what membership in the
final presence set means in terms of the last action of a user, relative to
a base set for users that never acted. -/
def lastJoinSpec (o : Option ViewerAction) (base : Prop) : Prop :=
  match o with
  | some .join => True
  | some .leave => False
  | none => base

/-! Helper lemmas shared by several claims. -/

/-- Taking 1000 elements of a cons peels the head. -/
theorem take_thousand_cons {α : Type} (d : α) (l : List α) :
    List.take 1000 (d :: l) = d :: List.take 999 l := rfl

/-- Chat list of the target stream after a service-level send: the new
message is prepended and the result trimmed to 1000 entries. -/
theorem chat_after_send (s : St) (sid mid : String) (now : Nat) (m : ChatInput) :
    (StreamingService.sendChatMessage s sid mid now m).chat sid
      = StreamingService.mkMessageData sid mid now m :: List.take 999 (s.chat sid) := by
  show (if sid = sid then
      List.take 1000 (StreamingService.mkMessageData sid mid now m :: s.chat sid)
    else s.chat sid) = _
  rw [if_pos rfl, take_thousand_cons]

/-- Published events after a service-level send: the new message is appended
to the pub/sub trace. -/
theorem published_after_send (s : St) (sid mid : String) (now : Nat) (m : ChatInput) :
    (StreamingService.sendChatMessage s sid mid now m).published
      = s.published ++ [(sid, StreamingService.mkMessageData sid mid now m)] := rfl

/-- LRANGE from 0 to limit-1 on a positive limit is List.take. -/
theorem lrange_take {α : Type} (l : List α) (L : Nat) (h : 1 ≤ L) :
    StreamingService.lrange l 0 ((L : Int) - 1) = l.take L := by
  have ha : StreamingService.lrangeStart (l.length : Int) 0 = 0 := by
    unfold StreamingService.lrangeStart
    omega
  have hb : StreamingService.lrangeStop (l.length : Int) ((L : Int) - 1) = (L : Int) - 1 := by
    unfold StreamingService.lrangeStop
    omega
  unfold StreamingService.lrange
  rw [ha, hb]
  have hab : ¬ ((0 : Int) > (L : Int) - 1) := by omega
  rw [if_neg hab]
  have ht : (((L : Int) - 1)).toNat + 1 = L := by omega
  rw [ht]
  simp

/-- Claim C6: the per-room chat history is a bounded ring buffer: after every
append the stored list has at most 1000 messages, and appending to a full
history of 1000 messages drops the oldest stored message (the last element
of the newest-first list). -/
theorem chat_history_ring_buffer (s : St) (sid mid : String) (now : Nat) (m : ChatInput) :
    ((StreamingService.sendChatMessage s sid mid now m).chat sid).length ≤ 1000 ∧
    ((s.chat sid).length = 1000 →
      (StreamingService.sendChatMessage s sid mid now m).chat sid
        = StreamingService.mkMessageData sid mid now m :: (s.chat sid).dropLast) := by
  constructor
  · rw [chat_after_send]
    simp only [List.length_cons, List.length_take]
    omega
  · intro h
    rw [chat_after_send, List.dropLast_eq_take, h]

/-- Claim C6 witness: appending to a full history of 1000 messages keeps the
length at 1000 and evicts the oldest message. -/
theorem chat_history_ring_buffer_witness :
    ((StreamingService.sendChatMessage
        { emptySt with chat := fun _ => List.replicate 1000 exMsg1 }
        "s1" "m2" 2 exInput).chat "s1").length ≤ 1000 ∧
    (StreamingService.sendChatMessage
        { emptySt with chat := fun _ => List.replicate 1000 exMsg1 }
        "s1" "m2" 2 exInput).chat "s1"
      = StreamingService.mkMessageData "s1" "m2" 2 exInput
          :: (List.replicate 1000 exMsg1).dropLast := by
  have h := chat_history_ring_buffer
    { emptySt with chat := fun _ => List.replicate 1000 exMsg1 } "s1" "m2" 2 exInput
  exact ⟨h.1, h.2 (by show (List.replicate 1000 exMsg1).length = 1000; rw [List.length_replicate])⟩

/-- Claim C9 (amended): for a positive limit L, getChatHistory returns the L
most recently appended messages (the first L of the newest-first stored
list), reversed to oldest-first order, hence at most L messages; and a
failed read yields the empty list. -/
theorem getChatHistory_bounded (l : List ChatMessageData) (L : Nat) (h : 1 ≤ L) :
    StreamingService.getChatHistory (some l) L = (l.take L).reverse ∧
    (StreamingService.getChatHistory (some l) L).length ≤ L ∧
    StreamingService.getChatHistory none L = [] := by
  have he : StreamingService.getChatHistory (some l) L = (l.take L).reverse := by
    show (StreamingService.lrange l 0 ((L : Int) - 1)).reverse = (l.take L).reverse
    rw [lrange_take l L h]
  refine ⟨he, ?_, rfl⟩
  rw [he]
  simp [List.length_take]

/-- Claim C9 witness: at limit 3 on a two-message history the whole history
comes back oldest-first, within the bound. -/
theorem getChatHistory_bounded_witness :
    StreamingService.getChatHistory (some [exMsg2, exMsg1]) 3
        = ([exMsg2, exMsg1].take 3).reverse ∧
    (StreamingService.getChatHistory (some [exMsg2, exMsg1]) 3).length ≤ 3 ∧
    StreamingService.getChatHistory none 3 = [] :=
  getChatHistory_bounded [exMsg2, exMsg1] 3 (by decide)

/-- Claim C9 counterexample: with limit 0 the source calls LRANGE 0 -1, which
is the entire list, so getChatHistory returns 2 messages, not at most 0. -/
theorem getChatHistory_limit_zero :
    StreamingService.getChatHistory (some [exMsg2, exMsg1]) 0 = [exMsg1, exMsg2] ∧
    ¬ ((StreamingService.getChatHistory (some [exMsg2, exMsg1]) 0).length ≤ 0) := by
  decide

/-- Claim C10: a join for a user already in the viewer set leaves the set and
its cardinality (the reported current-viewer count) unchanged but still
increments totalViews by one, so totalViews can exceed the number of
distinct viewers. -/
theorem rejoin_keeps_presence (s : St) (sid uid : String) (h : uid ∈ s.viewers sid) :
    (StreamingService.updateViewerCount s sid uid .join).viewers sid = s.viewers sid ∧
    ((StreamingService.updateViewerCount s sid uid .join).viewers sid).card
      = (s.viewers sid).card ∧
    (StreamingService.updateViewerCount s sid uid .join).totalViews sid
      = s.totalViews sid + 1 := by
  have hv : (StreamingService.updateViewerCount s sid uid .join).viewers sid
      = s.viewers sid := by
    simp [StreamingService.updateViewerCount, Finset.insert_eq_self.mpr h]
  refine ⟨hv, by rw [hv], ?_⟩
  simp [StreamingService.updateViewerCount]

/-- Claim C10 witness: joining twice pushes totalViews to 2 while one distinct
viewer is present. -/
theorem rejoin_keeps_presence_witness :
    (StreamingService.updateViewerCount
        (StreamingService.updateViewerCount emptySt "s1" "u1" .join)
        "s1" "u1" .join).totalViews "s1"
      = (StreamingService.updateViewerCount emptySt "s1" "u1" .join).totalViews "s1" + 1 ∧
    ((StreamingService.updateViewerCount
        (StreamingService.updateViewerCount emptySt "s1" "u1" .join)
        "s1" "u1" .join).viewers "s1").card
      = ((StreamingService.updateViewerCount emptySt "s1" "u1" .join).viewers "s1").card := by
  have h := rejoin_keeps_presence
    (StreamingService.updateViewerCount emptySt "s1" "u1" .join) "s1" "u1" (by decide)
  exact ⟨h.2.2, h.2.1⟩

/-- Claim C2 (amended): the streamBan table is never consulted by the viewer
paths: with a ban on (room, user) in place, the user's chat submission still
succeeds and the user's fresh vote is still recorded. -/
theorem banned_user_not_blocked (s : St) (sid uid mid : String) (now : Nat)
    (text ty : String) (u : UserRow)
    (hban : ∃ b ∈ s.bans, b.sermonId = sid ∧ b.userId = uid)
    (hu : s.users.find? (fun w => w.id == uid) = some u) :
    StreamingController.sendChatMessage s sid uid mid now text ty
      = .ok (StreamingService.sendChatMessage s sid mid now
          { userId := u.id, userName := u.firstName ++ " " ++ u.lastName,
            userAvatar := u.avatar, text := text, type := ty }) ∧
    ∀ pid oid, s.pollVotes.find? (fun v => v.pollId == pid && v.userId == uid) = none →
      StreamingController.voteOnPoll s pid uid oid
        = .ok { s with pollVotes := s.pollVotes
            ++ [{ pollId := pid, userId := uid, optionId := oid }] } := by
  constructor
  · unfold StreamingController.sendChatMessage
    rw [hu]
  · intro pid oid hv
    unfold StreamingController.voteOnPoll
    rw [hv]

/-- Claim C2 witness: in a state where u1 is banned on s1, the chat
submission of u1 succeeds. -/
theorem banned_user_not_blocked_witness :
    StreamingController.sendChatMessage exBanSt "s1" "u1" "m1" 5 "hello" "message"
      = .ok (StreamingService.sendChatMessage exBanSt "s1" "m1" 5
          { userId := exUser.id, userName := exUser.firstName ++ " " ++ exUser.lastName,
            userAvatar := exUser.avatar, text := "hello", type := "message" }) :=
  (banned_user_not_blocked exBanSt "s1" "u1" "m1" 5 "hello" "message" exUser
    ⟨exBan, by decide, rfl, rfl⟩ rfl).1

/-- Claim C2 counterexample: user u1 holds an unexpired ban on stream s1, yet
the chat submission is accepted and the message lands in the history. -/
theorem banned_user_chat_accepted :
    ((StreamingController.sendChatMessage exBanSt "s1" "u1" "m1" 5 "hello" "message").map
      (fun st => (st.chat "s1").length) = .ok 1) ∧
    exBanSt.bans.map (fun b => (b.sermonId, b.userId)) = [("s1", "u1")] :=
  ⟨rfl, by decide⟩

/-- Claim C3 (amended): the chat path performs no rate limiting: whatever
chatSlowMode the room is configured with and whatever the two submission
times are, both submissions from the same user are accepted and each lands
at the head of the history. -/
theorem no_rate_limiting (s : St) (sid uid mid1 mid2 : String) (t1 t2 : Nat)
    (x y ty : String) (u : UserRow) (cfg : StreamConfig)
    (hcfg : s.configs.find? (fun c => c.sermonId == sid) = some cfg)
    (hu : s.users.find? (fun w => w.id == uid) = some u) :
    ∃ s1 s2,
      StreamingController.sendChatMessage s sid uid mid1 t1 x ty = .ok s1 ∧
      StreamingController.sendChatMessage s1 sid uid mid2 t2 y ty = .ok s2 ∧
      (s1.chat sid).head? = some (StreamingService.mkMessageData sid mid1 t1
        { userId := u.id, userName := u.firstName ++ " " ++ u.lastName,
          userAvatar := u.avatar, text := x, type := ty }) ∧
      (s2.chat sid).head? = some (StreamingService.mkMessageData sid mid2 t2
        { userId := u.id, userName := u.firstName ++ " " ++ u.lastName,
          userAvatar := u.avatar, text := y, type := ty }) := by
  refine ⟨StreamingService.sendChatMessage s sid mid1 t1
      { userId := u.id, userName := u.firstName ++ " " ++ u.lastName,
        userAvatar := u.avatar, text := x, type := ty },
    StreamingService.sendChatMessage
      (StreamingService.sendChatMessage s sid mid1 t1
        { userId := u.id, userName := u.firstName ++ " " ++ u.lastName,
          userAvatar := u.avatar, text := x, type := ty }) sid mid2 t2
      { userId := u.id, userName := u.firstName ++ " " ++ u.lastName,
        userAvatar := u.avatar, text := y, type := ty }, ?_, ?_, ?_, ?_⟩
  · unfold StreamingController.sendChatMessage
    rw [hu]
  · unfold StreamingController.sendChatMessage
    have hu2 : (StreamingService.sendChatMessage s sid mid1 t1
        { userId := u.id, userName := u.firstName ++ " " ++ u.lastName,
          userAvatar := u.avatar, text := x, type := ty }).users.find?
        (fun w => w.id == uid) = some u := hu
    rw [hu2]
  · rw [chat_after_send]
    rfl
  · rw [chat_after_send]
    rfl

/-- Claim C3 witness: with chatSlowMode = 5 on s1, submissions at times 0 and
4 are both accepted. -/
theorem no_rate_limiting_witness :
    ∃ s1 s2,
      StreamingController.sendChatMessage exSlowSt "s1" "u1" "m1" 0 "hello" "message" = .ok s1 ∧
      StreamingController.sendChatMessage s1 "s1" "u1" "m2" 4 "again" "message" = .ok s2 ∧
      (s1.chat "s1").head? = some (StreamingService.mkMessageData "s1" "m1" 0
        { userId := exUser.id, userName := exUser.firstName ++ " " ++ exUser.lastName,
          userAvatar := exUser.avatar, text := "hello", type := "message" }) ∧
      (s2.chat "s1").head? = some (StreamingService.mkMessageData "s1" "m2" 4
        { userId := exUser.id, userName := exUser.firstName ++ " " ++ exUser.lastName,
          userAvatar := exUser.avatar, text := "again", type := "message" }) :=
  no_rate_limiting exSlowSt "s1" "u1" "m1" "m2" 0 4 "hello" "again" "message"
    exUser exCfg5 rfl rfl

/-- Claim C3 counterexample: chatSlowMode is 5 for s1, user u1 submits at
times 0 and 4, and both submissions are accepted (history length 2), not
exactly one. -/
theorem slow_mode_not_enforced :
    exSlowSt.configs.map (fun c => c.chatSlowMode) = [5] ∧
    (((StreamingController.sendChatMessage exSlowSt "s1" "u1" "m1" 0 "hello" "message").bind
       (fun st => StreamingController.sendChatMessage st "s1" "u1" "m2" 4 "again" "message")).map
       (fun st => (st.chat "s1").length)) = .ok 2 :=
  ⟨by decide, rfl⟩

/-- Claim C4 (amended): moderateChat is never consulted on submission: even
when the room is configured with moderateChat = true, a submitted chat
message (which carries no status field) is immediately prepended to the
Redis history and broadcast at submission time; a moderation decision
updates only the relational chatMessage table and leaves the history and
the broadcast trace unchanged. -/
theorem moderate_chat_ignored (s : St) (sid mid : String) (now : Nat) (m : ChatInput)
    (cfg : StreamConfig)
    (hcfg : s.configs.find? (fun c => c.sermonId == sid) = some cfg)
    (hmod : cfg.moderateChat = true) :
    ((StreamingService.sendChatMessage s sid mid now m).chat sid).head?
      = some (StreamingService.mkMessageData sid mid now m) ∧
    (StreamingService.sendChatMessage s sid mid now m).published
      = s.published ++ [(sid, StreamingService.mkMessageData sid mid now m)] ∧
    ∀ mid2 st r s2, StreamingController.moderateMessage s mid2 st r = .ok s2 →
      (∀ k, s2.chat k = s.chat k) ∧ s2.published = s.published := by
  refine ⟨by rw [chat_after_send]; rfl, published_after_send s sid mid now m, ?_⟩
  intro mid2 st r s2 h
  unfold StreamingController.moderateMessage at h
  split at h
  · cases h
    exact ⟨fun k => rfl, rfl⟩
  · exact Except.noConfusion h

/-- Claim C4 witness: on stream s1 configured with moderateChat = true, a
submission lands in the history and the broadcast trace at once, and
moderation decisions leave both untouched. -/
theorem moderate_chat_ignored_witness :
    ((StreamingService.sendChatMessage exModSt "s1" "m1" 7 exInput).chat "s1").head?
      = some (StreamingService.mkMessageData "s1" "m1" 7 exInput) ∧
    (StreamingService.sendChatMessage exModSt "s1" "m1" 7 exInput).published
      = exModSt.published ++ [("s1", StreamingService.mkMessageData "s1" "m1" 7 exInput)] ∧
    ∀ mid2 st r s2, StreamingController.moderateMessage exModSt mid2 st r = .ok s2 →
      (∀ k, s2.chat k = exModSt.chat k) ∧ s2.published = exModSt.published :=
  moderate_chat_ignored exModSt "s1" "m1" 7 exInput exCfgMod rfl rfl

/-- Claim C4 counterexample: stream s1 has moderateChat = true, yet the
submitted message is appended to the history and broadcast immediately. -/
theorem moderated_room_message_broadcast :
    exModSt.configs.map (fun c => (c.sermonId, c.moderateChat)) = [("s1", true)] ∧
    ((StreamingService.sendChatMessage exModSt "s1" "m1" 7 exInput).chat "s1").length = 1 ∧
    (StreamingService.sendChatMessage exModSt "s1" "m1" 7 exInput).published.length = 1 := by
  decide

/-- Claim C5 (amended): deleteMessage removes the row only from the
relational chatMessage table; the Redis history list and the broadcast
trace are untouched, so a deleted message still appears in every later
history read. -/
theorem delete_message_leaves_history (s : St) (mid : String)
    (h : s.chatRows.any (fun r => r.id == mid) = true) :
    ∃ s2, StreamingController.deleteMessage s mid = .ok s2 ∧
      (∀ k, s2.chat k = s.chat k) ∧
      s2.published = s.published ∧
      (∀ r ∈ s2.chatRows, ¬ r.id = mid) ∧
      (∀ k L, StreamingService.getChatHistory (some (s2.chat k)) L
        = StreamingService.getChatHistory (some (s.chat k)) L) := by
  refine ⟨{ s with chatRows := s.chatRows.filter (fun r => !(r.id == mid)) },
    ?_, fun k => rfl, rfl, ?_, fun k L => rfl⟩
  · unfold StreamingController.deleteMessage
    rw [if_pos h]
  · intro r hr
    have hp := List.of_mem_filter hr
    simpa using hp

/-- Claim C5 witness: deleting m1 removes its relational row but the Redis
history of s1 still holds the message. -/
theorem delete_message_leaves_history_witness :
    ∃ s2, StreamingController.deleteMessage exDelSt "m1" = .ok s2 ∧
      (∀ k, s2.chat k = exDelSt.chat k) ∧
      s2.published = exDelSt.published ∧
      (∀ r ∈ s2.chatRows, ¬ r.id = "m1") ∧
      (∀ k L, StreamingService.getChatHistory (some (s2.chat k)) L
        = StreamingService.getChatHistory (some (exDelSt.chat k)) L) :=
  delete_message_leaves_history exDelSt "m1" (by decide)

/-- Claim C5 counterexample: message m1 exists in both stores; after the
moderator deletes it, the chat history returned to clients still contains
it. -/
theorem deleted_message_still_in_history :
    exDelSt.chatRows.map (fun r => r.id) = ["m1"] ∧
    ((StreamingController.deleteMessage exDelSt "m1").map
      (fun st => StreamingService.getChatHistory (some (st.chat "s1")) 100)) = .ok [exMsg1] :=
  ⟨by decide, rfl⟩

/-- Claim C8 (amended): voteOnPoll checks only for a duplicate (poll, user)
vote: a fresh vote is accepted whatever the poll's isActive flag and
whatever the optionId; endPoll sets isActive := false and endedAt := now on
the poll row and leaves the votes unchanged, and a further fresh vote on
the ended poll is still accepted. -/
theorem vote_ignores_poll_state (s : St) (pid uid oid : String) (now : Nat)
    (hfresh : s.pollVotes.find? (fun v => v.pollId == pid && v.userId == uid) = none)
    (hpoll : s.polls.any (fun p => p.id == pid) = true) :
    StreamingController.voteOnPoll s pid uid oid
      = .ok { s with pollVotes := s.pollVotes
          ++ [{ pollId := pid, userId := uid, optionId := oid }] } ∧
    ∃ s2, StreamingController.endPoll s pid now = .ok s2 ∧
      (∀ p ∈ s2.polls, p.id = pid → p.isActive = false ∧ p.endedAt = some now) ∧
      s2.pollVotes = s.pollVotes ∧
      StreamingController.voteOnPoll s2 pid uid oid
        = .ok { s2 with pollVotes := s2.pollVotes
            ++ [{ pollId := pid, userId := uid, optionId := oid }] } := by
  constructor
  · unfold StreamingController.voteOnPoll
    rw [hfresh]
  · refine ⟨{ s with polls := s.polls.map (fun p =>
        if p.id == pid then { p with isActive := false, endedAt := some now } else p) },
      ?_, ?_, rfl, ?_⟩
    · unfold StreamingController.endPoll
      rw [if_pos hpoll]
    · intro p hp hid
      simp only [List.mem_map] at hp
      obtain ⟨q, hq, hqe⟩ := hp
      by_cases hcase : q.id = pid
      · have hb : (q.id == pid) = true := beq_iff_eq.mpr hcase
        rw [if_pos hb] at hqe
        rw [← hqe]
        exact ⟨rfl, rfl⟩
      · have hb : ¬ ((q.id == pid) = true) := by
          simp [hcase]
        rw [if_neg hb] at hqe
        rw [← hqe] at hid
        exact absurd hid hcase
    · unfold StreamingController.voteOnPoll
      have hfresh2 : ({ s with polls := s.polls.map (fun p =>
          if p.id == pid then { p with isActive := false, endedAt := some now } else p) } : St).pollVotes.find?
          (fun v => v.pollId == pid && v.userId == uid) = none := hfresh
      rw [hfresh2]

/-- Claim C8 witness: the inactive poll p1 accepts a fresh vote, and endPoll
marks it ended while votes keep flowing. -/
theorem vote_ignores_poll_state_witness :
    StreamingController.voteOnPoll exPollSt "p1" "u1" "bogus"
      = .ok { exPollSt with pollVotes := exPollSt.pollVotes
          ++ [{ pollId := "p1", userId := "u1", optionId := "bogus" }] } ∧
    ∃ s2, StreamingController.endPoll exPollSt "p1" 9 = .ok s2 ∧
      (∀ p ∈ s2.polls, p.id = "p1" → p.isActive = false ∧ p.endedAt = some 9) ∧
      s2.pollVotes = exPollSt.pollVotes ∧
      StreamingController.voteOnPoll s2 "p1" "u1" "bogus"
        = .ok { s2 with pollVotes := s2.pollVotes
            ++ [{ pollId := "p1", userId := "u1", optionId := "bogus" }] } :=
  vote_ignores_poll_state exPollSt "p1" "u1" "bogus" 9 rfl (by decide)

/-- Claim C8 counterexample: poll p1 is inactive and "bogus" is not one of
its options, yet the vote is recorded instead of failing with PollInactive
or InvalidOption. -/
theorem inactive_poll_vote_accepted :
    exPollSt.polls.map (fun p => (p.id, p.isActive)) = [("p1", false)] ∧
    ((StreamingController.voteOnPoll exPollSt "p1" "u1" "bogus").map (fun st => st.pollVotes))
      = .ok [{ pollId := "p1", userId := "u1", optionId := "bogus" }] ∧
    ¬ ("bogus" ∈ exPollInactive.options.map (fun o => o.id)) :=
  ⟨by decide, rfl, by decide⟩

/-- The viewers component of updateViewerCount on the target stream is the
pure set step: insert on join, erase on leave. -/
theorem viewers_update (s : St) (sid : String) (e : String × ViewerAction) :
    (StreamingService.updateViewerCount s sid e.1 e.2).viewers sid
      = viewersStep (s.viewers sid) e := by
  obtain ⟨u, a⟩ := e
  cases a <;> simp [StreamingService.updateViewerCount, viewersStep]

/-- Running an event list through updateViewerCount folds the pure set step
over the initial presence set. -/
theorem viewers_applyViewerEvents (sid : String) (evs : List (String × ViewerAction)) :
    ∀ s : St, (applyViewerEvents s sid evs).viewers sid
      = evs.foldl viewersStep (s.viewers sid) := by
  induction evs with
  | nil => intro s; rfl
  | cons e es ih =>
      intro s
      show (applyViewerEvents (StreamingService.updateViewerCount s sid e.1 e.2) sid es).viewers sid = _
      rw [ih, viewers_update]
      rfl

/-- Unfolding equation of lastActionOf on a cons. -/
theorem lastActionOf_cons (e : String × ViewerAction) (es : List (String × ViewerAction))
    (u : String) :
    lastActionOf (e :: es) u
      = match lastActionOf es u with
        | some a => some a
        | none => if e.1 = u then some e.2 else none := rfl

/-- A user with a last action occurs in the event list. -/
theorem lastActionOf_mem (evs : List (String × ViewerAction)) (u : String) :
    ∀ a, lastActionOf evs u = some a → u ∈ evs.map Prod.fst := by
  induction evs with
  | nil => intro a h; exact Option.noConfusion h
  | cons e es ih =>
      intro a h
      rw [lastActionOf_cons] at h
      cases hes : lastActionOf es u with
      | some b =>
          exact List.mem_cons.mpr (Or.inr (ih b hes))
      | none =>
          rw [hes] at h
          by_cases hw : e.1 = u
          · exact List.mem_cons.mpr (Or.inl hw.symm)
          · rw [if_neg hw] at h
            exact Option.noConfusion h

/-- Membership in the folded presence set is decided by the last action of
the user, falling back to the initial set for users that never acted. -/
theorem mem_foldl_viewersStep (u : String) (evs : List (String × ViewerAction)) :
    ∀ V : Finset String,
      (u ∈ evs.foldl viewersStep V) ↔ lastJoinSpec (lastActionOf evs u) (u ∈ V) := by
  induction evs with
  | nil => intro V; exact Iff.rfl
  | cons e es ih =>
      intro V
      show (u ∈ es.foldl viewersStep (viewersStep V e)) ↔
        lastJoinSpec (lastActionOf (e :: es) u) (u ∈ V)
      rw [ih (viewersStep V e), lastActionOf_cons]
      cases hes : lastActionOf es u with
      | some a =>
          cases a <;> exact Iff.rfl
      | none =>
          obtain ⟨w, a⟩ := e
          by_cases hw : w = u
          · subst hw
            cases a
            · simp [viewersStep, lastJoinSpec]
            · simp [viewersStep, lastJoinSpec]
          · cases a
            · simp only [viewersStep, lastJoinSpec, if_neg hw]
              rw [Finset.mem_insert]
              constructor
              · rintro (h | h)
                · exact absurd h.symm hw
                · exact h
              · exact Or.inr
            · simp only [viewersStep, lastJoinSpec, if_neg hw]
              rw [Finset.mem_erase]
              constructor
              · exact fun h => h.2
              · exact fun h => ⟨fun hc => hw hc.symm, h⟩

/-- Claim C7: the viewer count reported by getStreamInfo is the cardinality
of the presence set at read time (never a separately incremented counter);
join/leave have set semantics, so after any interleaving of join/leave
events starting from an empty presence set, the presence set is exactly the
set of users whose last event is a join, and the reported count is its
cardinality. -/
theorem viewer_count_is_presence_card (s : St) (sid : String)
    (evs : List (String × ViewerAction)) (h0 : s.viewers sid = ∅) :
    (∀ t : St, ∀ mt, t.streamHash sid = some mt →
        StreamingService.getStreamInfo t sid
          = some { mt with viewerCount := some ((t.viewers sid).card) }) ∧
    (applyViewerEvents s sid evs).viewers sid
      = (evs.map Prod.fst).toFinset.filter
          (fun w => lastActionOf evs w = some ViewerAction.join) ∧
    (∀ mt, (applyViewerEvents s sid evs).streamHash sid = some mt →
      StreamingService.getStreamInfo (applyViewerEvents s sid evs) sid
        = some { mt with viewerCount := some (((evs.map Prod.fst).toFinset.filter
            (fun w => lastActionOf evs w = some ViewerAction.join)).card) }) := by
  have hA : ∀ t : St, ∀ mt, t.streamHash sid = some mt →
      StreamingService.getStreamInfo t sid
        = some { mt with viewerCount := some ((t.viewers sid).card) } := by
    intro t mt hm
    unfold StreamingService.getStreamInfo
    rw [hm]
  have hB : (applyViewerEvents s sid evs).viewers sid
      = (evs.map Prod.fst).toFinset.filter
          (fun w => lastActionOf evs w = some ViewerAction.join) := by
    rw [viewers_applyViewerEvents, h0]
    ext w
    rw [mem_foldl_viewersStep]
    constructor
    · intro hw
      cases hl : lastActionOf evs w with
      | none =>
          rw [hl] at hw
          simp [lastJoinSpec] at hw
      | some a =>
          cases a
          · rw [Finset.mem_filter, List.mem_toFinset]
            exact ⟨lastActionOf_mem evs w .join hl, hl⟩
          · rw [hl] at hw
            simp [lastJoinSpec] at hw
    · intro hw
      rw [Finset.mem_filter] at hw
      rw [hw.2]
      trivial
  refine ⟨hA, hB, ?_⟩
  intro mt hm
  rw [hA _ mt hm, hB]

/-- Claim C7 witness: for the interleaving u1 joins, v1 joins, u1 leaves,
starting from no viewers, the presence set is exactly the users whose last
event is a join, and getStreamInfo reports its cardinality. -/
theorem viewer_count_is_presence_card_witness :
    (∀ t : St, ∀ mt, t.streamHash "s1" = some mt →
        StreamingService.getStreamInfo t "s1"
          = some { mt with viewerCount := some ((t.viewers "s1").card) }) ∧
    (applyViewerEvents emptySt "s1"
        [("u1", .join), ("v1", .join), ("u1", .leave)]).viewers "s1"
      = ([("u1", ViewerAction.join), ("v1", ViewerAction.join),
          ("u1", ViewerAction.leave)].map Prod.fst).toFinset.filter
          (fun w => lastActionOf [("u1", ViewerAction.join), ("v1", ViewerAction.join),
            ("u1", ViewerAction.leave)] w = some ViewerAction.join) ∧
    (∀ mt, (applyViewerEvents emptySt "s1"
        [("u1", .join), ("v1", .join), ("u1", .leave)]).streamHash "s1" = some mt →
      StreamingService.getStreamInfo (applyViewerEvents emptySt "s1"
        [("u1", .join), ("v1", .join), ("u1", .leave)]) "s1"
        = some { mt with viewerCount := some ((([("u1", ViewerAction.join),
            ("v1", ViewerAction.join), ("u1", ViewerAction.leave)].map Prod.fst).toFinset.filter
            (fun w => lastActionOf [("u1", ViewerAction.join), ("v1", ViewerAction.join),
              ("u1", ViewerAction.leave)] w = some ViewerAction.join)).card) }) :=
  viewer_count_is_presence_card emptySt "s1"
    [("u1", .join), ("v1", .join), ("u1", .leave)] rfl

/-- Boolean membership in an id list agrees with list membership. -/
theorem memberIds_iff (x : String) (ids : List String) :
    memberIds x ids = true ↔ x ∈ ids := by
  induction ids with
  | nil => simp [memberIds]
  | cons i is ih => simp [memberIds, ih]

/-- No vote matches the empty id list. -/
theorem filter_memberIds_nil (votes : List PollVote) :
    votes.filter (fun v => memberIds v.optionId []) = [] := by
  induction votes with
  | nil => rfl
  | cons v vs ih =>
      have hc : memberIds v.optionId [] = false := rfl
      rw [List.filter_cons, hc, if_neg Bool.false_ne_true]
      exact ih

/-- Splitting the count of votes over a fresh head id: votes matching the
extended id list are those matching the head plus those matching the tail. -/
theorem filter_count_cons (votes : List PollVote) (i : String) (is : List String)
    (hi : ¬ i ∈ is) :
    (votes.filter (fun v => memberIds v.optionId (i :: is))).length
      = (votes.filter (fun v => v.optionId == i)).length
        + (votes.filter (fun v => memberIds v.optionId is)).length := by
  induction votes with
  | nil => rfl
  | cons v vs ih =>
      simp only [List.filter_cons]
      by_cases hv : v.optionId = i
      · have h2 : (v.optionId == i) = true := beq_iff_eq.mpr hv
        have h3 : memberIds v.optionId is = false := by
          cases h4 : memberIds v.optionId is
          · rfl
          · rw [hv] at h4
            exact absurd ((memberIds_iff i is).mp h4) hi
        have h1 : memberIds v.optionId (i :: is) = true := by
          show ((v.optionId == i) || memberIds v.optionId is) = true
          rw [h2]
          rfl
        rw [if_pos h1, if_pos h2, if_neg (by rw [h3]; exact Bool.false_ne_true)]
        simp only [List.length_cons]
        omega
      · have h2 : (v.optionId == i) = false := by
          cases h4 : (v.optionId == i)
          · rfl
          · exact absurd (beq_iff_eq.mp h4) hv
        have h1 : memberIds v.optionId (i :: is) = memberIds v.optionId is := by
          show ((v.optionId == i) || memberIds v.optionId is) = memberIds v.optionId is
          rw [h2]
          rfl
        rw [h1]
        cases h5 : memberIds v.optionId is
        · rw [if_neg Bool.false_ne_true,
            if_neg (by rw [h2]; exact Bool.false_ne_true),
            if_neg Bool.false_ne_true]
          omega
        · rw [if_pos rfl, if_neg (by rw [h2]; exact Bool.false_ne_true), if_pos rfl]
          simp only [List.length_cons]
          omega

/-- For an id list without duplicates, the per-id counts of getPollResults
sum to the number of votes whose optionId is in the list. -/
theorem sum_option_counts (votes : List PollVote) (ids : List String) (h : ids.Nodup) :
    (ids.map (fun i => (votes.filter (fun v => v.optionId == i)).length)).sum
      = (votes.filter (fun v => memberIds v.optionId ids)).length := by
  revert h
  induction ids with
  | nil =>
      intro h
      simp [filter_memberIds_nil]
  | cons i is ih =>
      intro h
      have hni : ¬ i ∈ is := (List.nodup_cons.mp h).1
      have hns : is.Nodup := (List.nodup_cons.mp h).2
      rw [List.map_cons, List.sum_cons, ih hns, filter_count_cons votes i is hni]

/-- When the (pollId, userId) pairs of the vote table have no duplicates
(the unique index voteOnPoll relies on), the pairs of the votes matched to
one poll's options have no duplicates either. -/
theorem matched_pairs_nodup (s : St) (p : Poll)
    (hpairs : (s.pollVotes.map (fun v => (v.pollId, v.userId))).Nodup) :
    ((optionMatchedVotes s p).map (fun v => (v.pollId, v.userId))).Nodup :=
  List.Nodup.sublist (List.Sublist.map _ (List.filter_sublist _)) hpairs

/-- Claim C1 (amended): only the first vote of a user on a poll succeeds and
later votes fail with the already-voted error; the per-option counts
returned by getPollResults for poll P sum to the number of distinct
(poll, user) vote records whose optionId is among P's options — votes are
matched to P's options by optionId alone, whatever poll they were cast on. -/
theorem one_vote_and_results_sum (s : St) (p : Poll)
    (hp : s.polls.find? (fun q => q.id == p.id) = some p)
    (hopts : (p.options.map (fun o => o.id)).Nodup)
    (hpairs : (s.pollVotes.map (fun v => (v.pollId, v.userId))).Nodup) :
    (∀ uid oid oid2 s1, StreamingController.voteOnPoll s p.id uid oid = .ok s1 →
      StreamingController.voteOnPoll s1 p.id uid oid2 = .error "Already voted on this poll") ∧
    (∃ r, StreamingController.getPollResults s p.id = .ok r ∧
      r.totalVotes
        = ((optionMatchedVotes s p).map (fun v => (v.pollId, v.userId))).dedup.length) := by
  constructor
  · intro uid oid oid2 s1 h
    unfold StreamingController.voteOnPoll at h ⊢
    cases hf : s.pollVotes.find? (fun v => v.pollId == p.id && v.userId == uid) with
    | some v =>
        rw [hf] at h
        exact Except.noConfusion h
    | none =>
        rw [hf] at h
        cases h
        rw [List.find?_append, hf]
        have hone : (List.find? (fun v => v.pollId == p.id && v.userId == uid)
            ([{ pollId := p.id, userId := uid, optionId := oid }] : List PollVote))
            = some { pollId := p.id, userId := uid, optionId := oid } := by
          simp [List.find?]
        rw [Option.none_or, hone]
  · unfold StreamingController.getPollResults
    rw [hp]
    refine ⟨_, rfl, ?_⟩
    show ((p.options.map (fun o =>
        ({ id := o.id, text := o.text,
           votes := (StreamingController.optionVotes s o).length,
           voters := (StreamingController.optionVotes s o).map (fun v => v.userId) } :
          StreamingController.OptionResult))).map (fun r => r.votes)).sum
      = ((optionMatchedVotes s p).map (fun v => (v.pollId, v.userId))).dedup.length
    have e1 : ((p.options.map (fun o =>
        ({ id := o.id, text := o.text,
           votes := (StreamingController.optionVotes s o).length,
           voters := (StreamingController.optionVotes s o).map (fun v => v.userId) } :
          StreamingController.OptionResult))).map (fun r => r.votes))
        = (p.options.map (fun o => o.id)).map
            (fun i => (s.pollVotes.filter (fun v => v.optionId == i)).length) := by
      rw [List.map_map, List.map_map]
      rfl
    rw [e1, sum_option_counts s.pollVotes _ hopts,
      List.Nodup.dedup (matched_pairs_nodup s p hpairs), List.length_map]
    rfl

/-- Claim C1 witness: on the two-poll state where u1 already holds the vote
(p1, u1, o1), the duplicate-vote rejection and the totals equation hold for
p1. -/
theorem one_vote_and_results_sum_witness :
    (∀ uid oid oid2 s1,
      StreamingController.voteOnPoll exVoteSt2 exPollActive.id uid oid = .ok s1 →
      StreamingController.voteOnPoll s1 exPollActive.id uid oid2
        = .error "Already voted on this poll") ∧
    (∃ r, StreamingController.getPollResults exVoteSt2 exPollActive.id = .ok r ∧
      r.totalVotes
        = ((optionMatchedVotes exVoteSt2 exPollActive).map
            (fun v => (v.pollId, v.userId))).dedup.length) :=
  one_vote_and_results_sum exVoteSt2 exPollActive rfl (by decide) (by decide)

/-- Claim C1 counterexample: user u1 votes on poll p1 with optionId o3, an
option of another poll; the vote is recorded (u1 holds a vote on p1, one
distinct voter), yet the per-option totals of getPollResults for p1 sum
to 0, not 1. -/
theorem invalid_option_vote_uncounted :
    ((StreamingController.voteOnPoll exVoteSt "p1" "u1" "o3").map (fun st =>
      ((StreamingController.getPollResults st "p1").map (fun r => r.totalVotes),
       ((st.pollVotes.filter (fun v => v.pollId == "p1")).map
         (fun v => v.userId)).dedup.length)))
      = .ok (.ok 0, 1) := rfl

end Streaming
